import Mathlib

/-!
Verification of the dynamic tool factory of the `livekit-kanhaiya` voice
agent (source files `tools.py`, `config_loader.py`, `agent.py`).

The Python code is shallowly embedded: tool descriptors and parameters
become structures, the HTTP layer is abstracted as a function from the
built request to an outcome (a response or a raised transport exception),
and the generated tool callables become pure Lean functions of that
network oracle.  Log diagnostics emitted via `logging.warning` /
`logging.error` at tool-construction time are made explicit as a list of
events, so that claims about recorded diagnostics can be settled.
-/

namespace LK

/-- One entry of a descriptor's `parameters` list
(`tools.py`, consumed by `create_dynamic_tool`).  In the Python source a
parameter is a dict; keys `required` and `defaultValue` may be absent and
are read with `param.get('required', False)` and
`param.get('defaultValue', '')`, which the `Option` fields model. -/
structure ToolParameter where
  name : String
  type : String
  required : Option Bool
  defaultValue : Option String
  description : Option String
deriving Repr, DecidableEq

/-- `param.get('required', False)` -/
def pReq (p : ToolParameter) : Bool := p.required.getD false

/-- `param.get('defaultValue', '')` -/
def pDef (p : ToolParameter) : String := p.defaultValue.getD ""

/-- A tool descriptor (`tool_config` dict in `tools.py`,
`tools` entries of the configuration in `config_loader.py`).
`enabled` may be absent and is read with `.get('enabled', True)`. -/
structure ToolDescriptor where
  id : String
  name : String
  description : String
  requestType : String
  requestUrl : String
  parameters : List ToolParameter
  enabled : Option Bool
deriving Repr, DecidableEq

/-- `tool_config.get('enabled', True)` -/
def dEnabled (d : ToolDescriptor) : Bool := d.enabled.getD true

/-- Python `str.upper()` restricted to the ASCII range used by the code. -/
def pyUpper (s : String) : String := ⟨s.data.map Char.toUpper⟩

/-- The four HTTP methods the generated tool body can issue. -/
inductive Method
  | get | post | put | delete
deriving Repr, DecidableEq

/-- The `if request_type.upper() == 'GET': ... elif ... else:` dispatch
chain inside every generated `tool_function` (`tools.py`).  `none` is the
final `else` branch that yields the "Unsupported request type" result. -/
def methodOf (rt : String) : Option Method :=
  if pyUpper rt = "GET" then some .get
  else if pyUpper rt = "POST" then some .post
  else if pyUpper rt = "PUT" then some .put
  else if pyUpper rt = "DELETE" then some .delete
  else none

/-- How the name→value mapping travels with the request:
`params=data` (query string) or `json=data` (JSON body). -/
inductive Payload
  | query (data : List (String × String))
  | jsonBody (data : List (String × String))
deriving Repr, DecidableEq

/-- `requests.get(url, params=data)` / `requests.delete(url, params=data)`
put the mapping in the query string; `requests.post(url, json=data)` /
`requests.put(url, json=data)` put it in a JSON body. -/
def payloadOf (m : Method) (data : List (String × String)) : Payload :=
  match m with
  | .get => .query data
  | .delete => .query data
  | .post => .jsonBody data
  | .put => .jsonBody data

/-- The outbound HTTP request a generated tool issues. -/
structure HttpRequest where
  method : Method
  url : String
  payload : Payload
deriving Repr, DecidableEq

/-- JSON values, for modelling `response.json()` and `json.dumps`. -/
inductive JsonVal
  | null
  | bool (b : Bool)
  | num (n : Int)
  | str (s : String)
  | arr (xs : List JsonVal)
  | obj (kvs : List (String × JsonVal))

/-- An HTTP response as the generated tool body observes it:
`response.status_code`, `response.text`, and the outcome of
`response.json()` (`some` if the body parses as JSON, `none` if the parse
raises and the bare `except:` falls back to the raw text). -/
structure HttpResponse where
  status_code : Nat
  text : String
  jsonParse : Option JsonVal

/-- Outcome of attempting the HTTP request: a response, or a raised
transport-level exception with message `str(e)`. -/
inductive HttpOutcome
  | ok (resp : HttpResponse)
  | exn (msg : String)

/-- `f"Unsupported request type: {request_type}"` -/
def unsupportedMsg (rt : String) : String :=
  "Unsupported request type: " ++ rt

/-- `f"Error: HTTP {response.status_code} - {response.text}"` -/
def httpErrorMsg (st : Nat) (tx : String) : String :=
  "Error: HTTP " ++ toString st ++ " - " ++ tx

/-- `f"An error occurred while using {tool_name}: {str(e)}"` -/
def toolExnMsg (toolName e : String) : String :=
  "An error occurred while using " ++ toolName ++ ": " ++ e

/-- Two spaces of indentation per level, as in `json.dumps(·, indent=2)`. -/
def jIndent (lvl : Nat) : String := String.join (List.replicate lvl "  ")

/-- The character escapes `json.dumps` applies inside string literals. -/
def jsonEscapeChar (c : Char) : String :=
  if c = '"' then "\\\""
  else if c = '\\' then "\\\\"
  else if c = '\n' then "\\n"
  else if c = '\t' then "\\t"
  else if c = '\r' then "\\r"
  else String.singleton c

/-- A JSON string literal as `json.dumps` prints it. -/
def jsonQuote (s : String) : String :=
  "\"" ++ String.join (s.toList.map jsonEscapeChar) ++ "\""

mutual

/-- `json.dumps(v, indent=2)` at nesting level `lvl`. -/
def jsonDumps2V (lvl : Nat) : JsonVal → String
  | .null => "null"
  | .bool b => if b then "true" else "false"
  | .num n => toString n
  | .str s => jsonQuote s
  | .arr [] => "[]"
  | .arr (x :: xs) =>
      "[\n" ++ jsonDumps2Items lvl (x :: xs) ++ "\n" ++ jIndent lvl ++ "]"
  | .obj [] => "\x7b\x7d"
  | .obj (kv :: kvs) =>
      "\x7b\n" ++ jsonDumps2Fields lvl (kv :: kvs) ++ "\n" ++ jIndent lvl ++ "\x7d"

/-- Array elements, one per line, comma-separated. -/
def jsonDumps2Items (lvl : Nat) : List JsonVal → String
  | [] => ""
  | [x] => jIndent (lvl + 1) ++ jsonDumps2V (lvl + 1) x
  | x :: y :: xs =>
      jIndent (lvl + 1) ++ jsonDumps2V (lvl + 1) x ++ ",\n" ++
        jsonDumps2Items lvl (y :: xs)

/-- Object fields, one per line, `"key": value`, comma-separated. -/
def jsonDumps2Fields (lvl : Nat) : List (String × JsonVal) → String
  | [] => ""
  | [(k, v)] => jIndent (lvl + 1) ++ jsonQuote k ++ ": " ++ jsonDumps2V (lvl + 1) v
  | (k, v) :: kv :: kvs =>
      jIndent (lvl + 1) ++ jsonQuote k ++ ": " ++ jsonDumps2V (lvl + 1) v ++ ",\n" ++
        jsonDumps2Fields lvl (kv :: kvs)

end

/-- `json.dumps(result, indent=2)` -/
def jsonDumps2 (v : JsonVal) : String := jsonDumps2V 0 v

/-- The response-normalisation tail shared by every generated
`tool_function`: status 200 with a JSON body pretty-prints it, status 200
with a non-JSON body returns `response.text`, any other status returns the
`Error: HTTP ...` string. -/
def handleResponse (resp : HttpResponse) : String :=
  if resp.status_code = 200 then
    match resp.jsonParse with
    | some j => jsonDumps2 j
    | none => resp.text
  else
    httpErrorMsg resp.status_code resp.text

/-- What the tool body makes of the outcome of the `requests.*` call:
a raised transport exception is caught by the `except Exception as e:`
handler and becomes the `An error occurred ...` string, a response goes
through `handleResponse`. -/
def outcomeToResult (toolName : String) : HttpOutcome → String
  | .exn e => toolExnMsg toolName e
  | .ok resp => handleResponse resp

/-- The body of every generated `tool_function` in `create_dynamic_tool`
(`tools.py`): dispatch on `request_type.upper()`, issue the request through
the network oracle `net`, and normalise the outcome.  The name→value
mapping `data` has already been assembled from the call's arguments. -/
def toolFunctionBody (toolName rt url : String)
    (data : List (String × String)) (net : HttpRequest → HttpOutcome) : String :=
  match methodOf rt with
  | none => unsupportedMsg rt
  | some m => outcomeToResult toolName (net ⟨m, url, payloadOf m data⟩)

/-- A Python default value of a generated formal parameter: a string
literal, or the literal `None` (which the mixed three-parameter branch
uses for required parameters). -/
inductive PyDefault
  | str (s : String)
  | pynone
deriving Repr, DecidableEq

/-- The formal-parameter shape of a generated callable (the `context`
parameter aside): a list of formals, each either required (`none`) or
carrying a default (`some`), in positional order — or a variadic
`*args, **kwargs` signature, which the 4–5 parameter branch produces. -/
inductive Signature
  | formals (ds : List (Option PyDefault))
  | variadic
deriving Repr, DecidableEq

/-- The formal-parameter shape of the `async def tool_function` each
branch of `create_dynamic_tool` writes (`tools.py`):
* 0 parameters: no formals;
* 1 parameter: required ⇒ no default, else default `defaultValue`;
* 2 parameters: three cases — both required; first required and second
  optional; otherwise both formals get string defaults.  (In the
  both-required case the branch then executes
  `__code__.replace(co_varnames=...)`, which raises `ValueError` on
  CPython ≥ 3.11 — see `coReplaceFaults` — so that callable never
  escapes `create_dynamic_tool`.);
* 3 parameters: all required, or otherwise each formal gets a default —
  `None` when the parameter is required, its `defaultValue` when not;
* 4–5 parameters: a generic `*args, **kwargs` function;
* more than 5: no callable (`create_dynamic_tool` returns `None`). -/
def dynToolSignature (ps : List ToolParameter) : Option Signature :=
  match ps with
  | [] => some (.formals [])
  | [p] =>
      if pReq p then some (.formals [none])
      else some (.formals [some (.str (pDef p))])
  | [p1, p2] =>
      if pReq p1 && pReq p2 then some (.formals [none, none])
      else if pReq p1 && !pReq p2 then
        some (.formals [none, some (.str (pDef p2))])
      else
        some (.formals [some (.str (pDef p1)), some (.str (pDef p2))])
  | [p1, p2, p3] =>
      if pReq p1 && pReq p2 && pReq p3 then
        some (.formals [none, none, none])
      else
        some (.formals ([p1, p2, p3].map fun p =>
          if pReq p then some .pynone else some (.str (pDef p))))
  | _ =>
      if ps.length ≤ 5 then some .variadic
      else none

/-- The signature the specification describes: one formal per descriptor
parameter, in order, required ⇒ no default, optional ⇒ default
`defaultValue` (empty string if unset). -/
def specSignature (ps : List ToolParameter) : Signature :=
  .formals (ps.map fun p => if pReq p then none else some (.str (pDef p)))

/-- The parameter-list shapes on which `create_dynamic_tool` produces a
callable whose signature agrees with `specSignature`: arity 0 or 1
always; arity 2 only when the second parameter is optional (with both
parameters required the branch faults in `__code__.replace`, and with an
optional parameter before a required one both formals get defaults);
arity 3 only when the parameters are all required or all optional. -/
def sigFaithful (ps : List ToolParameter) : Bool :=
  match ps with
  | [] => true
  | [_] => true
  | [_, p2] => !pReq p2
  | [p1, p2, p3] =>
      (pReq p1 && pReq p2 && pReq p3) || (!pReq p1 && !pReq p2 && !pReq p3)
  | _ => false

/-- True exactly on the parameter-list shape whose branch executes
`tool_function.__code__ = tool_function.__code__.replace(co_varnames=
('context', param1_name, param2_name))` (`tools.py`, two-parameter
both-required branch).  The replacement tuple has 3 entries while the
code object has more local-variable slots, so on CPython ≥ 3.11 the call
raises `ValueError: code: co_nlocals != len(co_varnames)`, which escapes
`create_dynamic_tool`. -/
def coReplaceFaults (ps : List ToolParameter) : Bool :=
  match ps with
  | [p1, p2] => pReq p1 && pReq p2
  | _ => false

/-- `str(e)` of the `ValueError` the `__code__.replace` call raises. -/
def coVarnamesErrMsg : String := "code: co_nlocals != len(co_varnames)"

/-- A tool value as `get_dynamic_tools` collects them: one of the three
hand-written builtins (`search_web`, `end_call`, `send_email` in
`tools.py`), or a callable generated from a descriptor, carrying the
descriptor it closes over and the formal-parameter shape it was given. -/
inductive Tool
  | builtinSearchWeb
  | builtinEndCall
  | builtinSendEmail
  | dynamic (cfg : ToolDescriptor) (sig : Signature)
deriving Repr, DecidableEq

/-- A diagnostic log event emitted during tool construction
(`logging.warning` / `logging.error` calls; `logging.info` lines are not
diagnostics and are not modelled). -/
inductive LogEvent
  | warn (msg : String)
  | error (msg : String)
deriving Repr, DecidableEq

/-- `f"Tool {tool_name} has {len(parameters)} parameters which may cause issues"` -/
def tooManyParamsMsg (toolName : String) (n : Nat) : String :=
  "Tool " ++ toolName ++ " has " ++ toString n ++
    " parameters which may cause issues"

/-- `f"Failed to create dynamic tool {tool_name}: {e}"` -/
def failedCreateMsg (toolName e : String) : String :=
  "Failed to create dynamic tool " ++ toolName ++ ": " ++ e

/-- The outcome of one `create_dynamic_tool` call: a returned value
(a callable or `None`, together with the diagnostics the call logged),
or an exception escaping the call with message `str(e)`. -/
inductive CreateOutcome
  | ok (tool : Option Tool) (logs : List LogEvent)
  | raised (e : String)
deriving Repr, DecidableEq

/-- `create_dynamic_tool(tool_config)` (`tools.py`): on the
two-parameter both-required shape the `__code__.replace(co_varnames=...)`
call raises `ValueError` (CPython ≥ 3.11) and the exception escapes; on
every other shape with up to five parameters it builds a callable whose
formal-parameter shape is `dynToolSignature` and whose body is
`toolFunctionBody`; for more than five parameters it logs the warning
and returns `None`. -/
def create_dynamic_tool (cfg : ToolDescriptor) : CreateOutcome :=
  if coReplaceFaults cfg.parameters then .raised coVarnamesErrMsg
  else
    match dynToolSignature cfg.parameters with
    | some sig => .ok (some (.dynamic cfg sig)) []
    | none => .ok none [.warn (tooManyParamsMsg cfg.name cfg.parameters.length)]

/-- Names `get_dynamic_tools` treats as built-in tools. -/
def builtinNames : List String := ["search_web", "end_call", "send_email"]

/-- One iteration of the `for tool_config in tools_config:` loop of
`get_dynamic_tools` (`tools.py`), given the tools and diagnostics the
rest of the input contributes: skip a disabled descriptor; map the three
builtin names to the hand-written tools; otherwise build a dynamic tool
only when the name and the `requestUrl` are both non-empty (the skip is
silent); drop a `None` result of `create_dynamic_tool`; and catch an
exception escaping `create_dynamic_tool` in the `except Exception as e:`
handler, logging `Failed to create dynamic tool {tool_name}: {e}` and
appending no tool. -/
def gdtStep (cfg : ToolDescriptor) (tl : List Tool × List LogEvent) :
    List Tool × List LogEvent :=
  if !dEnabled cfg then tl
  else if cfg.name = "search_web" then (.builtinSearchWeb :: tl.1, tl.2)
  else if cfg.name = "end_call" then (.builtinEndCall :: tl.1, tl.2)
  else if cfg.name = "send_email" then (.builtinSendEmail :: tl.1, tl.2)
  else if cfg.name ≠ "" ∧ cfg.requestUrl ≠ "" then
    match create_dynamic_tool cfg with
    | .ok (some t) ls => (t :: tl.1, ls ++ tl.2)
    | .ok none ls => (tl.1, ls ++ tl.2)
    | .raised e => (tl.1, .error (failedCreateMsg cfg.name e) :: tl.2)
  else tl

/-- `get_dynamic_tools(tools_config)` (`tools.py`): fold `gdtStep` over
the descriptor list.  Returns the tool list (in input order) and the
diagnostics emitted. -/
def get_dynamic_tools : List ToolDescriptor → List Tool × List LogEvent
  | [] => ([], [])
  | cfg :: rest => gdtStep cfg (get_dynamic_tools rest)

/-- `ConfigurationLoader.get_enabled_tools` (`config_loader.py`):
`[tool for tool in tools if tool.get('enabled', True)]`. -/
def get_enabled_tools (tools : List ToolDescriptor) : List ToolDescriptor :=
  tools.filter fun d => dEnabled d

/-- The external effects `end_call` performs, each of which may raise:
`context.session.generate_reply` plus the first `job_ctx.shutdown()`
(the initial `try` block), and the recovery `get_job_context()` +
`job_ctx.shutdown()` inside the `except` handler.  `faultMsg` is `str(e)`
for the exception the first attempt raised. -/
structure EndCallEnv where
  farewellOk : Bool
  shutdownOk : Bool
  recoveryOk : Bool
  faultMsg : String
deriving Repr, DecidableEq

/-- `f"Call ended: {reason}. Goodbye!"` -/
def callEndedMsg (reason : String) : String :=
  "Call ended: " ++ reason ++ ". Goodbye!"

/-- `end_call(context, reason)` (`tools.py`): say goodbye and shut down;
on any fault, retry the shutdown and still return the success farewell;
only if the recovery shutdown also faults return the error string. -/
def end_call (reason : String) (env : EndCallEnv) : String :=
  if env.farewellOk && env.shutdownOk then callEndedMsg reason
  else if env.recoveryOk then callEndedMsg reason
  else "Error ending call: " ++ env.faultMsg

/-! ### Shared concrete inputs for counterexamples and witnesses -/

/-- An optional parameter named `a` with default value `x`. -/
def paramOptA : ToolParameter := ⟨"a", "string", some false, some "x", none⟩

/-- A required parameter named `b`. -/
def paramReqB : ToolParameter := ⟨"b", "string", some true, none, none⟩

/-- A required parameter named `c`. -/
def paramReqC : ToolParameter := ⟨"c", "string", some true, none, none⟩

/-- A GET descriptor whose parameter list is optional-then-required. -/
def descOptThenReq : ToolDescriptor :=
  ⟨"t1", "toolA", "demo", "GET", "http://example.com", [paramOptA, paramReqB], some true⟩

/-- A POST descriptor whose parameter list is required-then-optional. -/
def descReqThenOpt : ToolDescriptor :=
  ⟨"t2", "toolB", "demo", "POST", "http://example.com", [paramReqB, paramOptA], some true⟩

/-- A GET descriptor with two required parameters — the shape whose
construction branch faults in `__code__.replace`. -/
def descBothReq : ToolDescriptor :=
  ⟨"t10", "toolF", "demo", "GET", "http://example.com", [paramReqB, paramReqC], some true⟩

/-- A network oracle that always answers 200 with the non-JSON body `ok`. -/
def cnetOk : HttpRequest → HttpOutcome := fun _ => .ok ⟨200, "ok", none⟩

/-! ### C1 -/

/-- Helper for C1: on the faithful parameter-list shapes the generated
signature is exactly the specified one. -/
theorem dynToolSignature_eq_spec (ps : List ToolParameter)
    (h : sigFaithful ps = true) :
    dynToolSignature ps = some (specSignature ps) := by
  rcases ps with _ | ⟨p1, _ | ⟨p2, _ | ⟨p3, _ | ⟨p4, rest⟩⟩⟩⟩
  · simp [dynToolSignature, specSignature]
  · cases h1 : pReq p1 <;> simp [dynToolSignature, specSignature, h1]
  · cases h1 : pReq p1 <;> cases h2 : pReq p2 <;>
      simp [sigFaithful, h1, h2] at h <;>
      simp [dynToolSignature, specSignature, h1, h2]
  · cases h1 : pReq p1 <;> cases h2 : pReq p2 <;> cases h3 : pReq p3 <;>
      simp [sigFaithful, h1, h2, h3] at h <;>
      simp [dynToolSignature, specSignature, h1, h2, h3]
  · simp [sigFaithful] at h

/-- Helper for C1 and C8: a faithful parameter-list shape never reaches
the faulting `__code__.replace` call (that call sits only in the
two-parameter both-required branch, which `sigFaithful` excludes). -/
theorem coReplaceFaults_eq_false_of_faithful (ps : List ToolParameter)
    (h : sigFaithful ps = true) : coReplaceFaults ps = false := by
  rcases ps with _ | ⟨p1, _ | ⟨p2, _ | ⟨p3, t⟩⟩⟩
  · rfl
  · rfl
  · simp [sigFaithful] at h
    simp [coReplaceFaults, h]
  · rfl

/-- C1 (counterexample): the claim fails at a two-parameter descriptor
whose first parameter is optional and second required — the generated
callable gives the required parameter `b` the default `''` (`tools.py`,
the final `else` of the two-parameter branch), so its signature is not
the specified one. -/
theorem C1_counterexample :
    descOptThenReq.parameters.length ≤ 5 ∧
      create_dynamic_tool descOptThenReq =
        .ok (some (.dynamic descOptThenReq
          (.formals [some (.str "x"), some (.str "")]))) [] ∧
      Signature.formals [some (.str "x"), some (.str "")] ≠
        specSignature descOptThenReq.parameters := by
  decide

/-- C1 (amended): for a descriptor whose parameter list has a faithful
shape — 0 or 1 parameters; 2 parameters with the second optional; 3
parameters all required or all optional — `create_dynamic_tool` produces
a callable with one formal parameter per descriptor parameter, in
descriptor order, required parameters having no default and optional
ones defaulting to their `defaultValue` (empty string if unset), and
emits no diagnostic; on the two-parameters-both-required shape the
`__code__.replace(co_varnames=...)` call raises `ValueError` (CPython
≥ 3.11), so no callable is produced and the exception escapes
`create_dynamic_tool`. -/
theorem C1_signature_matches_spec (cfg : ToolDescriptor) :
    (sigFaithful cfg.parameters = true →
      create_dynamic_tool cfg =
        .ok (some (.dynamic cfg (specSignature cfg.parameters))) []) ∧
    (coReplaceFaults cfg.parameters = true →
      create_dynamic_tool cfg = .raised coVarnamesErrMsg) := by
  constructor
  · intro h
    have hf := coReplaceFaults_eq_false_of_faithful cfg.parameters h
    simp [create_dynamic_tool, hf, dynToolSignature_eq_spec cfg.parameters h]
  · intro h
    simp [create_dynamic_tool, h]

/-- C1 witness: the amended claim evaluated at a concrete
required-then-optional two-parameter descriptor (faithful shape) and at
a concrete both-required two-parameter descriptor (faulting shape). -/
theorem C1_signature_matches_spec_witness :
    (sigFaithful descReqThenOpt.parameters = true ∧
      create_dynamic_tool descReqThenOpt =
        .ok (some (.dynamic descReqThenOpt
          (specSignature descReqThenOpt.parameters))) []) ∧
    (coReplaceFaults descBothReq.parameters = true ∧
      create_dynamic_tool descBothReq = .raised coVarnamesErrMsg) :=
  ⟨⟨by decide, (C1_signature_matches_spec descReqThenOpt).1 (by decide)⟩,
   ⟨by decide, (C1_signature_matches_spec descBothReq).2 (by decide)⟩⟩

/-! ### C2 -/

/-- C2 (counterexample): the dispatch is case-insensitive
(`request_type.upper()` in `tools.py`), so the requestType `get` — which
is none of the four literals `GET`/`DELETE`/`POST`/`PUT` — is dispatched
as a GET rather than producing the `Unsupported request type: get`
result the claim requires for every other requestType. -/
theorem C2_counterexample :
    ("get" ≠ "GET" ∧ "get" ≠ "DELETE" ∧ "get" ≠ "POST" ∧ "get" ≠ "PUT") ∧
      methodOf "get" = some .get ∧
      toolFunctionBody "toolA" "get" "http://example.com" [("a", "b")] cnetOk = "ok" ∧
      toolFunctionBody "toolA" "get" "http://example.com" [("a", "b")] cnetOk ≠
        unsupportedMsg "get" := by
  decide

/-- C2 (amended): a generated tool dispatches on the uppercased
`requestType`: `GET`/`DELETE` issue the request with the name→value
mapping as query parameters, `POST`/`PUT` issue it as a JSON body, and a
requestType whose uppercasing is none of the four is returned as the
string `Unsupported request type: {requestType}` rather than raised. -/
theorem C2_dispatch (nm rt url : String) (data : List (String × String))
    (net : HttpRequest → HttpOutcome) :
    (pyUpper rt = "GET" →
      toolFunctionBody nm rt url data net =
        outcomeToResult nm (net ⟨.get, url, .query data⟩)) ∧
    (pyUpper rt = "DELETE" →
      toolFunctionBody nm rt url data net =
        outcomeToResult nm (net ⟨.delete, url, .query data⟩)) ∧
    (pyUpper rt = "POST" →
      toolFunctionBody nm rt url data net =
        outcomeToResult nm (net ⟨.post, url, .jsonBody data⟩)) ∧
    (pyUpper rt = "PUT" →
      toolFunctionBody nm rt url data net =
        outcomeToResult nm (net ⟨.put, url, .jsonBody data⟩)) ∧
    (methodOf rt = none →
      toolFunctionBody nm rt url data net = unsupportedMsg rt) := by
  refine ⟨fun h => ?_, fun h => ?_, fun h => ?_, fun h => ?_, fun h => ?_⟩
  · simp [toolFunctionBody, methodOf, payloadOf, h]
  · simp [toolFunctionBody, methodOf, payloadOf, h]
  · simp [toolFunctionBody, methodOf, payloadOf, h]
  · simp [toolFunctionBody, methodOf, payloadOf, h]
  · simp [toolFunctionBody, h]

/-- C2 witness: the amended dispatch behavior at each of the four
uppercase methods and at the non-HTTP requestType `BUILTIN`. -/
theorem C2_dispatch_witness :
    toolFunctionBody "toolA" "GET" "http://example.com" [("a", "b")] cnetOk =
      outcomeToResult "toolA" (cnetOk ⟨.get, "http://example.com", .query [("a", "b")]⟩) ∧
    toolFunctionBody "toolA" "DELETE" "http://example.com" [("a", "b")] cnetOk =
      outcomeToResult "toolA" (cnetOk ⟨.delete, "http://example.com", .query [("a", "b")]⟩) ∧
    toolFunctionBody "toolA" "POST" "http://example.com" [("a", "b")] cnetOk =
      outcomeToResult "toolA" (cnetOk ⟨.post, "http://example.com", .jsonBody [("a", "b")]⟩) ∧
    toolFunctionBody "toolA" "PUT" "http://example.com" [("a", "b")] cnetOk =
      outcomeToResult "toolA" (cnetOk ⟨.put, "http://example.com", .jsonBody [("a", "b")]⟩) ∧
    toolFunctionBody "toolA" "BUILTIN" "http://example.com" [("a", "b")] cnetOk =
      unsupportedMsg "BUILTIN" :=
  ⟨(C2_dispatch "toolA" "GET" _ _ cnetOk).1 (by decide),
   (C2_dispatch "toolA" "DELETE" _ _ cnetOk).2.1 (by decide),
   (C2_dispatch "toolA" "POST" _ _ cnetOk).2.2.1 (by decide),
   (C2_dispatch "toolA" "PUT" _ _ cnetOk).2.2.2.1 (by decide),
   (C2_dispatch "toolA" "BUILTIN" _ _ cnetOk).2.2.2.2 (by decide)⟩

/-! ### C3 -/

/-- A 200 response whose body parses as the JSON object `{"a": 1}`. -/
def resp200Json : HttpResponse := ⟨200, "raw", some (.obj [("a", .num 1)])⟩

/-- A 200 response whose body `ok` does not parse as JSON. -/
def resp200Text : HttpResponse := ⟨200, "ok", none⟩

/-- A 404 response with body `not found`. -/
def resp404 : HttpResponse := ⟨404, "not found", none⟩

/-- C3 (confirmed): when the request goes through, a 200 response whose
body parses as JSON is returned pretty-printed with `json.dumps(·,
indent=2)`; a 200 response whose body is not JSON is returned as the raw
`response.text`; and any non-200 status yields exactly
`Error: HTTP {status} - {body}`. -/
theorem C3_response_normalisation (nm rt url : String)
    (data : List (String × String)) (m : Method) (resp : HttpResponse)
    (hm : methodOf rt = some m) :
    (resp.status_code = 200 → ∀ j, resp.jsonParse = some j →
      toolFunctionBody nm rt url data (fun _ => .ok resp) = jsonDumps2 j) ∧
    (resp.status_code = 200 → resp.jsonParse = none →
      toolFunctionBody nm rt url data (fun _ => .ok resp) = resp.text) ∧
    (resp.status_code ≠ 200 →
      toolFunctionBody nm rt url data (fun _ => .ok resp) =
        httpErrorMsg resp.status_code resp.text) := by
  refine ⟨fun h1 j hj => ?_, fun h1 h2 => ?_, fun h1 => ?_⟩ <;>
    simp [toolFunctionBody, hm, outcomeToResult, handleResponse, *]

/-- C3 witness: the three response shapes at concrete inputs — a JSON
body `{"a": 1}` pretty-prints, a non-JSON body `ok` comes back verbatim,
and a 404 with body `not found` yields `Error: HTTP 404 - not found`. -/
theorem C3_response_normalisation_witness :
    toolFunctionBody "toolA" "GET" "http://example.com" []
        (fun _ => .ok resp200Json) = "\x7b\n  \"a\": 1\n\x7d" ∧
    toolFunctionBody "toolA" "GET" "http://example.com" []
        (fun _ => .ok resp200Text) = "ok" ∧
    toolFunctionBody "toolA" "GET" "http://example.com" []
        (fun _ => .ok resp404) = "Error: HTTP 404 - not found" := by
  refine ⟨?_, ?_, ?_⟩
  · exact ((C3_response_normalisation "toolA" "GET" "http://example.com" []
      .get resp200Json (by decide)).1 rfl (.obj [("a", .num 1)]) rfl).trans (by decide)
  · exact (C3_response_normalisation "toolA" "GET" "http://example.com" []
      .get resp200Text (by decide)).2.1 rfl rfl
  · exact ((C3_response_normalisation "toolA" "GET" "http://example.com" []
      .get resp404 (by decide)).2.2 (by decide)).trans (by decide)

/-! ### C4 -/

/-- C4 (confirmed): a transport-level fault raised while issuing the
HTTP request is caught by the tool body's `except Exception as e:`
handler and becomes the returned string
`An error occurred while using {tool_name}: {fault}`; the body is a
total function into `String`, so no fault propagates to the caller. -/
theorem C4_transport_fault (nm rt url : String)
    (data : List (String × String)) (m : Method) (e : String)
    (hm : methodOf rt = some m) :
    toolFunctionBody nm rt url data (fun _ => .exn e) = toolExnMsg nm e := by
  simp [toolFunctionBody, hm, outcomeToResult]

/-- C4 witness: a connection-refused fault during a GET becomes the
textual error result. -/
theorem C4_transport_fault_witness :
    toolFunctionBody "toolA" "GET" "http://example.com" [("a", "b")]
        (fun _ => .exn "connection refused") =
      "An error occurred while using toolA: connection refused" :=
  (C4_transport_fault "toolA" "GET" "http://example.com" [("a", "b")]
    .get "connection refused" (by decide)).trans (by decide)

/-! ### C5 -/

/-- A GET descriptor with an empty `requestUrl`. -/
def descNoUrl : ToolDescriptor := ⟨"t3", "toolC", "demo", "GET", "", [], some true⟩

/-- C5 (counterexample): a non-`BUILTIN` descriptor with an empty
`requestUrl` is indeed refused (no callable), but silently — the
diagnostics list is empty, where the claim requires a recorded
diagnostic reporting the missing URL ( `get_dynamic_tools` in `tools.py`
skips it inside `if tool_name and tool_config.get('requestUrl'):` with
no logging call on the skip path). -/
theorem C5_counterexample :
    descNoUrl.requestType ≠ "BUILTIN" ∧ descNoUrl.requestUrl = "" ∧
      get_dynamic_tools [descNoUrl] = ([], []) := by
  decide

/-- C5 (amended): a descriptor with `requestType ≠ BUILTIN`, an empty
`requestUrl` and a name that is none of the builtin names is skipped
silently: no callable is produced for it, no diagnostic is recorded, and
the remaining descriptors of the same input produce exactly the tools
and diagnostics they would produce without it. -/
theorem C5_missing_url_skipped (pre post : List ToolDescriptor)
    (d : ToolDescriptor) (hrt : d.requestType ≠ "BUILTIN")
    (hurl : d.requestUrl = "") (hname : d.name ∉ builtinNames) :
    get_dynamic_tools (pre ++ d :: post) = get_dynamic_tools (pre ++ post) := by
  have h1 : ¬d.name = "search_web" := fun h => hname (by simp [builtinNames, h])
  have h2 : ¬d.name = "end_call" := fun h => hname (by simp [builtinNames, h])
  have h3 : ¬d.name = "send_email" := fun h => hname (by simp [builtinNames, h])
  induction pre with
  | nil =>
      cases hE : dEnabled d <;>
        simp [get_dynamic_tools, gdtStep, hE, h1, h2, h3, hurl]
  | cons p pre ih =>
      simp only [List.cons_append, get_dynamic_tools, List.append_eq]
      rw [ih]

/-- C5 witness: the amended claim at a concrete input with a descriptor
before and after the URL-less one. -/
theorem C5_missing_url_skipped_witness :
    descNoUrl.requestType ≠ "BUILTIN" ∧ descNoUrl.requestUrl = "" ∧
      descNoUrl.name ∉ builtinNames ∧
      get_dynamic_tools ([descReqThenOpt] ++ descNoUrl :: [descOptThenReq]) =
        get_dynamic_tools ([descReqThenOpt] ++ [descOptThenReq]) :=
  ⟨by decide, rfl, by decide,
    C5_missing_url_skipped [descReqThenOpt] [descOptThenReq] descNoUrl
      (by decide) rfl (by decide)⟩

/-! ### C6 -/

/-- Helper for C6: more than five parameters fall through every
arity branch of `create_dynamic_tool` to the final `else`. -/
theorem dynToolSignature_none_of_gt5 (ps : List ToolParameter)
    (h : 5 < ps.length) : dynToolSignature ps = none := by
  rcases ps with _ | ⟨p1, _ | ⟨p2, _ | ⟨p3, _ | ⟨p4, rest⟩⟩⟩⟩
  · simp at h
  · simp at h
  · simp at h
  · simp at h
  · simp only [dynToolSignature]
    rw [if_neg (Nat.not_le.mpr h)]

/-- A six-parameter descriptor. -/
def descSixParams : ToolDescriptor :=
  ⟨"t4", "toolD", "demo", "GET", "http://example.com",
    [paramReqB, paramReqB, paramReqB, paramReqB, paramReqB, paramReqB], some true⟩

/-- Helper for C6: more than five parameters is not the two-parameter
shape, so the `__code__.replace` fault cannot occur. -/
theorem coReplaceFaults_eq_false_of_gt5 (ps : List ToolParameter)
    (h : 5 < ps.length) : coReplaceFaults ps = false := by
  rcases ps with _ | ⟨p1, _ | ⟨p2, _ | ⟨p3, t⟩⟩⟩
  · rfl
  · rfl
  · simp at h
  · rfl

/-- C6 (confirmed): a descriptor with more than five parameters is
refused — `create_dynamic_tool` produces no callable and records the
too-many-parameters warning diagnostic
(`Tool {name} has {n} parameters which may cause issues`). -/
theorem C6_too_many_parameters (cfg : ToolDescriptor)
    (h : 5 < cfg.parameters.length) :
    create_dynamic_tool cfg =
      .ok none [.warn (tooManyParamsMsg cfg.name cfg.parameters.length)] := by
  simp [create_dynamic_tool, coReplaceFaults_eq_false_of_gt5 cfg.parameters h,
    dynToolSignature_none_of_gt5 cfg.parameters h]

/-- C6 witness: the refusal and the exact warning text at a concrete
six-parameter descriptor. -/
theorem C6_too_many_parameters_witness :
    5 < descSixParams.parameters.length ∧
      create_dynamic_tool descSixParams =
        .ok none [.warn "Tool toolD has 6 parameters which may cause issues"] :=
  ⟨by decide, (C6_too_many_parameters descSixParams (by decide)).trans (by decide)⟩

/-! ### C7 -/

/-- Helper for C7: the truthiness test `tool.get('enabled', True)`
succeeds exactly when the `enabled` field is not literally `false`. -/
theorem dEnabled_iff (d : ToolDescriptor) :
    dEnabled d = true ↔ d.enabled ≠ some false := by
  cases h : d.enabled with
  | none => simp [dEnabled, h]
  | some b => cases b <;> simp [dEnabled, h]

/-- A disabled descriptor. -/
def descDisabled : ToolDescriptor :=
  ⟨"t5", "toolE", "demo", "GET", "http://example.com", [], some false⟩

/-- C7 (confirmed): `get_enabled_tools` returns exactly the descriptors
whose `enabled` field is not `false` (an absent field counts as
enabled), preserving input order (it is a sublist of the input), and
`get_dynamic_tools` — which builds the tool set handed to the agent
runtime — produces the same tools and diagnostics on the full input as
on the enabled descriptors alone, so no disabled descriptor ever
contributes a tool. -/
theorem C7_enabled_filter (ts : List ToolDescriptor) :
    (∀ d : ToolDescriptor,
      d ∈ get_enabled_tools ts ↔ d ∈ ts ∧ d.enabled ≠ some false) ∧
    (get_enabled_tools ts).Sublist ts ∧
    get_dynamic_tools ts = get_dynamic_tools (get_enabled_tools ts) := by
  refine ⟨fun d => ?_, ?_, ?_⟩
  · rw [get_enabled_tools, List.mem_filter, dEnabled_iff]
  · exact List.filter_sublist ts
  · induction ts with
    | nil => rfl
    | cons d ts ih =>
        cases hE : dEnabled d
        · have hf : get_enabled_tools (d :: ts) = get_enabled_tools ts := by
            simp [get_enabled_tools, List.filter_cons, hE]
          rw [hf, ← ih]
          simp [get_dynamic_tools, gdtStep, hE]
        · have hf : get_enabled_tools (d :: ts) = d :: get_enabled_tools ts := by
            simp [get_enabled_tools, List.filter_cons, hE]
          rw [hf]
          simp only [get_dynamic_tools]
          rw [ih]

/-- C7 witness: the filter and the runtime tool set evaluated on a
concrete input containing a disabled descriptor. -/
theorem C7_enabled_filter_witness :
    (descDisabled ∈ get_enabled_tools [descDisabled, descReqThenOpt] ↔
      descDisabled ∈ [descDisabled, descReqThenOpt] ∧
        descDisabled.enabled ≠ some false) ∧
    get_dynamic_tools [descDisabled, descReqThenOpt] =
      get_dynamic_tools (get_enabled_tools [descDisabled, descReqThenOpt]) :=
  ⟨(C7_enabled_filter [descDisabled, descReqThenOpt]).1 descDisabled,
   (C7_enabled_filter [descDisabled, descReqThenOpt]).2.2⟩

/-! ### C8 -/

/-- An enabled `BUILTIN` descriptor whose name matches no hand-written
tool, with the empty `requestUrl` such descriptors carry. -/
def descUnknownBuiltin : ToolDescriptor :=
  ⟨"t6", "frobnicate", "demo", "BUILTIN", "", [], some true⟩

/-- An enabled descriptor named `search_web` with `requestType BUILTIN`. -/
def descBuiltinSearch : ToolDescriptor :=
  ⟨"t7", "search_web", "demo", "BUILTIN", "", [], some true⟩

/-- An enabled `BUILTIN` descriptor with an unknown name and a non-empty
`requestUrl`. -/
def descBuiltinWithUrl : ToolDescriptor :=
  ⟨"t8", "frob2", "demo", "BUILTIN", "http://example.com", [], some true⟩

/-- An enabled `BUILTIN` descriptor with an unknown name, a non-empty
`requestUrl`, and two required parameters — the shape whose construction
faults. -/
def descBuiltinTwoReq : ToolDescriptor :=
  ⟨"t11", "frob3", "demo", "BUILTIN", "http://example.com",
    [paramReqB, paramReqC], some true⟩

/-- C8 (counterexample): an enabled `BUILTIN` descriptor whose name is
none of `search_web`/`end_call`/`send_email` is dropped silently —
`get_dynamic_tools` yields no tool and no diagnostic — where the claim
requires failing with an `UnknownBuiltin` error rather than silently
producing nothing (`get_dynamic_tools` in `tools.py` dispatches on the
name only and its skip path has no logging call). -/
theorem C8_counterexample :
    dEnabled descUnknownBuiltin = true ∧
      descUnknownBuiltin.requestType = "BUILTIN" ∧
      descUnknownBuiltin.name ∉ builtinNames ∧
      get_dynamic_tools [descUnknownBuiltin] = ([], []) := by
  decide

/-- C8 (amended): for every enabled descriptor with `requestType`
`BUILTIN`, tool construction resolves the names `search_web`,
`end_call` and `send_email` to the hand-written builtin tools; any
other name never yields an `UnknownBuiltin` error: with an empty
`requestUrl` the descriptor is skipped silently (no tool, no
diagnostic); with a non-empty `requestUrl` and a parameter-list shape
whose construction does not fault, an HTTP-templated callable is built
for it instead, every invocation of which returns
`Unsupported request type: BUILTIN`; and with a non-empty `requestUrl`
and the two-required-parameters shape, construction raises, the
exception is caught, a `Failed to create dynamic tool {name}: {e}`
error diagnostic is recorded, and no tool is built. -/
theorem C8_builtin_resolution (d : ToolDescriptor)
    (rest : List ToolDescriptor) (hE : dEnabled d = true)
    (hrt : d.requestType = "BUILTIN") :
    (d.name = "search_web" →
      get_dynamic_tools (d :: rest) =
        (.builtinSearchWeb :: (get_dynamic_tools rest).1,
          (get_dynamic_tools rest).2)) ∧
    (d.name = "end_call" →
      get_dynamic_tools (d :: rest) =
        (.builtinEndCall :: (get_dynamic_tools rest).1,
          (get_dynamic_tools rest).2)) ∧
    (d.name = "send_email" →
      get_dynamic_tools (d :: rest) =
        (.builtinSendEmail :: (get_dynamic_tools rest).1,
          (get_dynamic_tools rest).2)) ∧
    (d.name ∉ builtinNames → d.requestUrl = "" →
      get_dynamic_tools (d :: rest) = get_dynamic_tools rest) ∧
    (d.name ∉ builtinNames → d.name ≠ "" → d.requestUrl ≠ "" →
      coReplaceFaults d.parameters = false →
      ∀ sig, dynToolSignature d.parameters = some sig →
        get_dynamic_tools (d :: rest) =
          (.dynamic d sig :: (get_dynamic_tools rest).1,
            (get_dynamic_tools rest).2)) ∧
    (d.name ∉ builtinNames → d.name ≠ "" → d.requestUrl ≠ "" →
      coReplaceFaults d.parameters = true →
      get_dynamic_tools (d :: rest) =
        ((get_dynamic_tools rest).1,
          .error (failedCreateMsg d.name coVarnamesErrMsg) ::
            (get_dynamic_tools rest).2)) ∧
    (∀ url data net,
      toolFunctionBody d.name d.requestType url data net =
        unsupportedMsg "BUILTIN") := by
  have hBuiltin : methodOf "BUILTIN" = none := by decide
  refine ⟨fun h => ?_, fun h => ?_, fun h => ?_,
    fun hname hurl => ?_, fun hname hne hurl hfault sig hsig => ?_,
    fun hname hne hurl hfault => ?_, fun url data net => ?_⟩
  · simp [get_dynamic_tools, gdtStep, hE, h]
  · simp [get_dynamic_tools, gdtStep, hE, h]
  · simp [get_dynamic_tools, gdtStep, hE, h]
  · have h1 : ¬d.name = "search_web" := fun h => hname (by simp [builtinNames, h])
    have h2 : ¬d.name = "end_call" := fun h => hname (by simp [builtinNames, h])
    have h3 : ¬d.name = "send_email" := fun h => hname (by simp [builtinNames, h])
    simp [get_dynamic_tools, gdtStep, hE, h1, h2, h3, hurl]
  · have h1 : ¬d.name = "search_web" := fun h => hname (by simp [builtinNames, h])
    have h2 : ¬d.name = "end_call" := fun h => hname (by simp [builtinNames, h])
    have h3 : ¬d.name = "send_email" := fun h => hname (by simp [builtinNames, h])
    simp [get_dynamic_tools, gdtStep, hE, h1, h2, h3, hne, hurl,
      create_dynamic_tool, hfault, hsig]
  · have h1 : ¬d.name = "search_web" := fun h => hname (by simp [builtinNames, h])
    have h2 : ¬d.name = "end_call" := fun h => hname (by simp [builtinNames, h])
    have h3 : ¬d.name = "send_email" := fun h => hname (by simp [builtinNames, h])
    simp [get_dynamic_tools, gdtStep, hE, h1, h2, h3, hne, hurl,
      create_dynamic_tool, hfault]
  · simp [toolFunctionBody, hrt, hBuiltin]

/-- C8 witness: the amended claim at four concrete `BUILTIN`
descriptors — a known builtin name; an unknown name without URL; an
unknown name with a URL whose built tool answers
`Unsupported request type: BUILTIN`; and an unknown name with a URL and
two required parameters, whose construction fault is caught and logged
as a `Failed to create dynamic tool` error. -/
theorem C8_builtin_resolution_witness :
    get_dynamic_tools [descBuiltinSearch] = ([.builtinSearchWeb], []) ∧
    get_dynamic_tools [descUnknownBuiltin] = ([], []) ∧
    get_dynamic_tools [descBuiltinWithUrl] =
      ([.dynamic descBuiltinWithUrl (.formals [])], []) ∧
    toolFunctionBody descBuiltinWithUrl.name descBuiltinWithUrl.requestType
      "http://example.com" [] cnetOk = unsupportedMsg "BUILTIN" ∧
    get_dynamic_tools [descBuiltinTwoReq] =
      ([], [.error (failedCreateMsg "frob3" coVarnamesErrMsg)]) :=
  ⟨(C8_builtin_resolution descBuiltinSearch [] rfl rfl).1 rfl,
   (C8_builtin_resolution descUnknownBuiltin [] rfl rfl).2.2.2.1
     (by decide) rfl,
   (C8_builtin_resolution descBuiltinWithUrl [] rfl rfl).2.2.2.2.1
     (by decide) (by decide) (by decide) rfl (.formals []) rfl,
   (C8_builtin_resolution descBuiltinWithUrl [] rfl rfl).2.2.2.2.2.2
     "http://example.com" [] cnetOk,
   (C8_builtin_resolution descBuiltinTwoReq [] rfl rfl).2.2.2.2.2.1
     (by decide) (by decide) (by decide) rfl⟩

/-! ### C9 -/

/-- C9 (confirmed): when the farewell/termination attempt of `end_call`
faults (session or room already gone) and the recovery shutdown inside
the `except` handler goes through, `end_call` returns the same
`Call ended: {reason}. Goodbye!` success farewell as the normal path,
not an error result. -/
theorem C9_end_call_fault_recovery (reason : String) (env : EndCallEnv)
    (hFault : env.farewellOk = false ∨ env.shutdownOk = false)
    (hRec : env.recoveryOk = true) :
    end_call reason env = callEndedMsg reason ∧
      end_call reason env = end_call reason ⟨true, true, true, ""⟩ := by
  rcases hFault with h | h <;> simp [end_call, h, hRec]

/-- C9 witness: a faulting farewell with a successful recovery shutdown
at the default reason. -/
theorem C9_end_call_fault_recovery_witness :
    end_call "Call completed" ⟨false, true, true, "room deleted"⟩ =
      "Call ended: Call completed. Goodbye!" :=
  ((C9_end_call_fault_recovery "Call completed"
    ⟨false, true, true, "room deleted"⟩ (Or.inl rfl) rfl).1).trans (by decide)

/-! ### C10 -/

/-- An enabled descriptor named `end_call` configured as an HTTP POST
tool with a URL and a parameter. -/
def descEndCallHttp : ToolDescriptor :=
  ⟨"t9", "end_call", "demo", "POST", "http://example.com", [paramReqB], some true⟩

/-- C10 (confirmed): an enabled descriptor named exactly `search_web`,
`end_call` or `send_email` makes `get_dynamic_tools` yield the
corresponding hand-written builtin tool, whatever its `requestType`,
`requestUrl` and `parameters` are (the descriptor `d` is arbitrary), and
the output for it is only that builtin — no HTTP-templated callable is
built from the descriptor. -/
theorem C10_builtin_name_overrides (d : ToolDescriptor)
    (rest : List ToolDescriptor) (hE : dEnabled d = true) :
    (d.name = "search_web" →
      get_dynamic_tools (d :: rest) =
        (.builtinSearchWeb :: (get_dynamic_tools rest).1,
          (get_dynamic_tools rest).2)) ∧
    (d.name = "end_call" →
      get_dynamic_tools (d :: rest) =
        (.builtinEndCall :: (get_dynamic_tools rest).1,
          (get_dynamic_tools rest).2)) ∧
    (d.name = "send_email" →
      get_dynamic_tools (d :: rest) =
        (.builtinSendEmail :: (get_dynamic_tools rest).1,
          (get_dynamic_tools rest).2)) := by
  refine ⟨fun h => ?_, fun h => ?_, fun h => ?_⟩ <;>
    simp [get_dynamic_tools, gdtStep, hE, h]

/-- C10 witness: a descriptor named `end_call` configured as an HTTP
POST tool still yields the builtin `end_call`, with the following
descriptor unaffected. -/
theorem C10_builtin_name_overrides_witness :
    get_dynamic_tools [descEndCallHttp, descReqThenOpt] =
      (.builtinEndCall :: (get_dynamic_tools [descReqThenOpt]).1,
        (get_dynamic_tools [descReqThenOpt]).2) :=
  (C10_builtin_name_overrides descEndCallHttp [descReqThenOpt] rfl).2.1 rfl

end LK
